import Mathlib

/-!
Verification model of the developer-tools tamper-detection core of the
screenshare browser extension, shallowly embedded from
src/extension/content/security-enforcer.js.

The embedding covers:
* the detection engine state installed by startDeveloperToolsDetection
  (lines 346-443): the shared detectionCount / devToolsOpen accumulators,
  the four polled collectors, the console.log / console.clear overrides,
  the context-menu hook and the 200ms monitoring interval;
* the keyboard-shortcut trigger paths of blockDevTools (lines 295-344);
* the reaction dispatcher handleDeveloperToolsViolation (lines 445-477)
  together with logBlockedAction (lines 689-706);
* the listener / override bookkeeping of the SecurityEnforcer class
  (startEnforcement lines 112-160, stopEnforcement lines 162-185) with the
  DOM removeEventListener matching semantics (removal succeeds only for the
  same target, event type, listener and capture flag);
* the getUserMedia override of blockScreenshots (lines 495-524);
* the handleMessage dispatch (lines 57-88).

JavaScript numbers holding the counter are embedded as Int (all arithmetic
in the source is small-integer addition, far from any floating point
rounding), fallible host calls are embedded as explicit outcome flags, and
the single-threaded timer-driven execution is embedded as a step function
over an explicit event alphabet.
-/

namespace SecurityEnforcer

/-- State of the closure created by startDeveloperToolsDetection
(security-enforcer.js lines 346-443): the two shared accumulators
devToolsOpen and detectionCount, whether the 200ms monitoring interval is
still scheduled, and how many times handleDeveloperToolsViolation has been
invoked (the reaction dispatcher call count). -/
structure DetState where
  devToolsOpen : Bool
  detectionCount : Int
  intervalScheduled : Bool
  dispatches : Nat
deriving DecidableEq

/-- Environment of one monitoring-interval tick: whether each polled
collector observes its condition, and whether some collector throws
(throwAt k means collector k raised, so collectors after it and the
threshold comparison of that tick are skipped and control reaches the
catch block of lines 435-438). Collector indices follow the call order of
lines 426-429: 0 = checkWindowSize, 1 = checkViewportChanges,
2 = the console.dir getter trap on the dummy Image element,
3 = performanceCheck. -/
structure TickInput where
  windowDelta : Bool
  viewportDelta : Bool
  dirTrap : Bool
  perfSlow : Bool
  throwAt : Option (Fin 4)
deriving DecidableEq

/-- The trigger comparison of line 431:
devToolsOpen or detectionCount strictly greater than 10. -/
def triggerCond (o : Bool) (c : Int) : Bool :=
  o || decide ((10 : Int) < c)

/-- Effect of the k-th polled collector on the shared state, from
checkWindowSize (lines 371-377, weight 3), checkViewportChanges
(lines 404-412, weight 2), the property-getter trap read during
console.dir (lines 380-386, weight 10) and performanceCheck
(lines 389-398, weight 15). Each collector that fires sets devToolsOpen
and adds its fixed weight. -/
def runCollector (inp : TickInput) (k : Nat) (s : DetState) : DetState :=
  if k = 0 then
    (if inp.windowDelta then
      { s with devToolsOpen := true, detectionCount := s.detectionCount + 3 }
     else s)
  else if k = 1 then
    (if inp.viewportDelta then
      { s with devToolsOpen := true, detectionCount := s.detectionCount + 2 }
     else s)
  else if k = 2 then
    (if inp.dirTrap then
      { s with devToolsOpen := true, detectionCount := s.detectionCount + 10 }
     else s)
  else if k = 3 then
    (if inp.perfSlow then
      { s with devToolsOpen := true, detectionCount := s.detectionCount + 15 }
     else s)
  else s

/-- Runs the polled collectors with index below n in source order. -/
def runCollectorsUpTo (inp : TickInput) : Nat → DetState → DetState
  | 0, s => s
  | n + 1, s => runCollector inp n (runCollectorsUpTo inp n s)

/-- One firing of the monitoring interval callback (lines 424-439).
If the interval is no longer scheduled nothing runs. Otherwise the body
runs inside try/catch: if some collector throws, the collectors before it
have already run, the catch block adds 5 to detectionCount and the
threshold comparison of that tick is skipped; if no collector throws, all
four collectors run and the comparison of line 431 decides whether
clearInterval is called and handleDeveloperToolsViolation is invoked. -/
def tick (inp : TickInput) (s : DetState) : DetState :=
  if s.intervalScheduled = true then
    match inp.throwAt with
    | some k =>
      let s1 := runCollectorsUpTo inp k.val s
      { s1 with detectionCount := s1.detectionCount + 5 }
    | none =>
      let s1 := runCollectorsUpTo inp 4 s
      if triggerCond s1.devToolsOpen s1.detectionCount then
        { s1 with intervalScheduled := false, dispatches := s1.dispatches + 1 }
      else s1
  else s

/-- Events serialized by the page event loop that touch the detection
state: a call through the console.log override (lines 355-361), a call
through the console.clear override (lines 363-367), a firing of the
context-menu hook installed at lines 415-421 (which dispatches directly),
a blocked keyboard shortcut from the blockDevTools keydown listener
(lines 297-337, which dispatches directly), and a monitoring tick. -/
inductive DetEvent
  | consoleLogCall
  | consoleClearCall
  | contextmenuFire
  | keydownShortcut
  | tickFire (inp : TickInput)
deriving DecidableEq

/-- Transition of the detection state under one serialized event.
console.log increments the counter and sets devToolsOpen only when the
incremented counter exceeds 3; console.clear sets devToolsOpen and adds 5;
the context-menu hook sets devToolsOpen, adds 5 and invokes the dispatcher
without touching the interval; a blocked keyboard shortcut invokes the
dispatcher without touching counter or interval. -/
def step (e : DetEvent) (s : DetState) : DetState :=
  match e with
  | .consoleLogCall =>
    let c := s.detectionCount + 1
    { s with detectionCount := c,
             devToolsOpen := s.devToolsOpen || decide ((3 : Int) < c) }
  | .consoleClearCall =>
    { s with devToolsOpen := true, detectionCount := s.detectionCount + 5 }
  | .contextmenuFire =>
    { s with devToolsOpen := true, detectionCount := s.detectionCount + 5,
             dispatches := s.dispatches + 1 }
  | .keydownShortcut =>
    { s with dispatches := s.dispatches + 1 }
  | .tickFire inp => tick inp s

/-- Detection state right after startDeveloperToolsDetection returns:
devToolsOpen false (line 347), detectionCount 0 (line 348), the monitoring
interval scheduled (line 424), no dispatch yet. -/
def detInit : DetState := ⟨false, 0, true, 0⟩

/-- Detection state reached from session start after a serialized list of
events. -/
def runEvents (es : List DetEvent) : DetState :=
  es.foldl (fun s e => step e s) detInit

/-- A tick on which no collector observes anything and nothing throws. -/
def quietInput : TickInput := ⟨false, false, false, false, none⟩

/-- A tick on which the first collector (checkWindowSize) throws before
contributing. -/
def throwInput : TickInput := ⟨false, false, false, false, some 0⟩

/-- A tick on which every polled collector fires. -/
def fireAllInput : TickInput := ⟨true, true, true, true, none⟩

/-- A tick on which exactly the weight-3 collector (checkWindowSize,
lines 371-377) fires and nothing throws: the code path that realizes a
signal of weight 3 inside the monitoring loop. -/
def windowDeltaInput : TickInput := ⟨true, false, false, false, none⟩

/-- Host function slots the enforcer overrides: the four clipboard
functions (blockCopyPaste lines 204-234), the two media capture functions
(blockScreenshots lines 495-524), window.open and window.print
(overrideWindowFunctions lines 526-543), and the console.log /
console.clear slots taken over by startDeveloperToolsDetection
(lines 351-367). -/
inductive FuncPath
  | clipboardRead
  | clipboardReadText
  | clipboardWrite
  | clipboardWriteText
  | getDisplayMedia
  | getUserMedia
  | windowOpen
  | windowPrint
  | consoleLog
  | consoleClear
deriving DecidableEq

/-- The two event targets listeners are attached to in the source. -/
inductive Target
  | document
  | window
deriving DecidableEq

/-- Identities of the listener closures created by the enforcer, one per
addEventListener call site. -/
inductive ListenerTag
  | copyL
  | cutL
  | pasteL
  | rightClick
  | selectstartL
  | dragL
  | dragstartL
  | dragendL
  | dragoverL
  | dragenterL
  | dragleaveL
  | dropL
  | keydownDevtools
  | keydownPrintscreen
  | blurL
  | focusL
  | visibilityL
  | beforeunloadL
  | detectionContextmenu
deriving DecidableEq

/-- A live DOM listener registration: target, event type string, listener
identity, capture flag. Per the DOM specification, removeEventListener
only removes a registration whose target, type, listener and capture flag
all match. -/
structure ListenerReg where
  target : Target
  eventType : String
  tag : ListenerTag
  capture : Bool
deriving DecidableEq

/-- The bookkeeping state of the SecurityEnforcer instance: the isActive
flag, the currently overridden host function slots, the keys of the
originalFunctions restore map, the live listener registrations, the
entries of the eventListeners map (map key string paired with the stored
listener identity), and the detection-engine state once
startDeveloperToolsDetection has run (the devToolsMonitoringInterval
closure of line 442). -/
structure EnforcerState where
  isActive : Bool
  overridden : List FuncPath
  originalFunctions : List FuncPath
  installed : List ListenerReg
  eventListeners : List (String × ListenerTag)
  det : Option DetState
deriving DecidableEq

/-- addEventListener followed by this.eventListeners.set(key, listener). -/
def addRecordedListener (tgt : Target) (ty : String) (tag : ListenerTag)
    (cap : Bool) (key : String) (s : EnforcerState) : EnforcerState :=
  { s with installed := s.installed ++ [⟨tgt, ty, tag, cap⟩],
           eventListeners := s.eventListeners ++ [(key, tag)] }

/-- addEventListener with no eventListeners map entry (the context-menu
hook of line 415). -/
def addPlainListener (tgt : Target) (ty : String) (tag : ListenerTag)
    (cap : Bool) (s : EnforcerState) : EnforcerState :=
  { s with installed := s.installed ++ [⟨tgt, ty, tag, cap⟩] }

/-- Override of a host function slot together with
this.originalFunctions.set(name, original). -/
def recordOverride (f : FuncPath) (s : EnforcerState) : EnforcerState :=
  { s with overridden := s.overridden ++ [f],
           originalFunctions := s.originalFunctions ++ [f] }

/-- Override of a host function slot with no originalFunctions entry (the
console.log / console.clear overrides of lines 355-367). -/
def plainOverride (f : FuncPath) (s : EnforcerState) : EnforcerState :=
  { s with overridden := s.overridden ++ [f] }

/-- Whether one stopEnforcement removal pass, namely
document.removeEventListener(key, listener, true) for a map entry ev
(line 165), actually removes the registration r: the registration must be
on document, its event type must equal the map key, its listener must be
the stored one, and it must have been added with capture true. -/
def removalMatches (ev : String × ListenerTag) (r : ListenerReg) : Bool :=
  decide (r.target = Target.document) && decide (r.eventType = ev.1)
    && decide (r.tag = ev.2) && r.capture

/-- stopEnforcement (lines 162-185): performs one removeEventListener call
per eventListeners map entry and clears the map, then restores every
function recorded in originalFunctions and clears that map. The
devToolsMonitoringInterval stored at line 442 is not touched. -/
def stopEnforcement (s : EnforcerState) : EnforcerState :=
  { s with
    installed := s.eventListeners.foldl
      (fun regs ev => regs.filter (fun r => ! removalMatches ev r)) s.installed,
    eventListeners := [],
    overridden := s.originalFunctions.foldl
      (fun ov f => ov.filter (fun g => ! decide (g = f))) s.overridden,
    originalFunctions := [] }

/-- blockCopyPaste (lines 187-235): three recorded document listeners with
capture true whose map keys equal their event types, then the four
recorded clipboard overrides. -/
def blockCopyPaste (s : EnforcerState) : EnforcerState :=
  let s := addRecordedListener Target.document "copy" ListenerTag.copyL true "copy" s
  let s := addRecordedListener Target.document "cut" ListenerTag.cutL true "cut" s
  let s := addRecordedListener Target.document "paste" ListenerTag.pasteL true "paste" s
  let s := recordOverride FuncPath.clipboardRead s
  let s := recordOverride FuncPath.clipboardReadText s
  let s := recordOverride FuncPath.clipboardWrite s
  recordOverride FuncPath.clipboardWriteText s

/-- blockRightClick (lines 237-248). -/
def blockRightClick (s : EnforcerState) : EnforcerState :=
  addRecordedListener Target.document "contextmenu" ListenerTag.rightClick true
    "contextmenu" s

/-- blockTextSelection (lines 250-277); the injected style element has no
bookkeeping effect. -/
def blockTextSelection (s : EnforcerState) : EnforcerState :=
  addRecordedListener Target.document "selectstart" ListenerTag.selectstartL true
    "selectstart" s

/-- blockDragDrop (lines 279-293): seven recorded document listeners. -/
def blockDragDrop (s : EnforcerState) : EnforcerState :=
  let s := addRecordedListener Target.document "drag" ListenerTag.dragL true "drag" s
  let s := addRecordedListener Target.document "dragstart" ListenerTag.dragstartL true
    "dragstart" s
  let s := addRecordedListener Target.document "dragend" ListenerTag.dragendL true
    "dragend" s
  let s := addRecordedListener Target.document "dragover" ListenerTag.dragoverL true
    "dragover" s
  let s := addRecordedListener Target.document "dragenter" ListenerTag.dragenterL true
    "dragenter" s
  let s := addRecordedListener Target.document "dragleave" ListenerTag.dragleaveL true
    "dragleave" s
  addRecordedListener Target.document "drop" ListenerTag.dropL true "drop" s

/-- startDeveloperToolsDetection (lines 346-443): overrides console.log
and console.clear without recording them, installs the context-menu hook
on document without capture and without a map entry, and schedules the
monitoring interval, resetting the detection accumulators. -/
def startDeveloperToolsDetection (s : EnforcerState) : EnforcerState :=
  let s := plainOverride FuncPath.consoleLog s
  let s := plainOverride FuncPath.consoleClear s
  let s := addPlainListener Target.document "contextmenu"
    ListenerTag.detectionContextmenu false s
  { s with det := some detInit }

/-- blockDevTools (lines 295-344): the keydown listener is added with
event type keydown but recorded under the map key keydown-devtools, then
the continuous detection is started. -/
def blockDevTools (s : EnforcerState) : EnforcerState :=
  startDeveloperToolsDetection
    (addRecordedListener Target.document "keydown" ListenerTag.keydownDevtools true
      "keydown-devtools" s)

/-- blockPrintScreen (lines 479-493): event type keydown, map key
keydown-printscreen. -/
def blockPrintScreen (s : EnforcerState) : EnforcerState :=
  addRecordedListener Target.document "keydown" ListenerTag.keydownPrintscreen true
    "keydown-printscreen" s

/-- blockScreenshots (lines 495-524): two recorded overrides. -/
def blockScreenshots (s : EnforcerState) : EnforcerState :=
  recordOverride FuncPath.getUserMedia (recordOverride FuncPath.getDisplayMedia s)

/-- overrideWindowFunctions (lines 526-557): two recorded overrides, then
blur and focus listeners added on window without capture but recorded in
the map. -/
def overrideWindowFunctions (s : EnforcerState) : EnforcerState :=
  let s := recordOverride FuncPath.windowOpen s
  let s := recordOverride FuncPath.windowPrint s
  let s := addRecordedListener Target.window "blur" ListenerTag.blurL false "blur" s
  addRecordedListener Target.window "focus" ListenerTag.focusL false "focus" s

/-- monitorPageVisibility (lines 559-571): document listener added without
capture, recorded in the map. -/
def monitorPageVisibility (s : EnforcerState) : EnforcerState :=
  addRecordedListener Target.document "visibilitychange" ListenerTag.visibilityL false
    "visibilitychange" s

/-- blockUnauthorizedNavigation (lines 573-583): window listener added
without capture, recorded in the map. -/
def blockUnauthorizedNavigation (s : EnforcerState) : EnforcerState :=
  addRecordedListener Target.window "beforeunload" ListenerTag.beforeunloadL false
    "beforeunload" s

/-- The restriction flags consulted by startEnforcement
(config.restrictions, lines 116-148). -/
structure Restrictions where
  blockCopyPaste : Bool
  blockRightClick : Bool
  blockTextSelection : Bool
  blockDragDrop : Bool
  blockDevTools : Bool
  blockPrintScreen : Bool
  blockScreenshots : Bool
deriving DecidableEq

/-- startEnforcement (lines 112-160): returns immediately without a
config; otherwise applies each block in source order according to its
flag, then unconditionally overrides the window functions, monitors page
visibility and blocks navigation. -/
def startEnforcement (cfg : Option Restrictions) (s : EnforcerState) : EnforcerState :=
  match cfg with
  | none => s
  | some r =>
    let s := if r.blockCopyPaste then blockCopyPaste s else s
    let s := if r.blockRightClick then blockRightClick s else s
    let s := if r.blockTextSelection then blockTextSelection s else s
    let s := if r.blockDragDrop then blockDragDrop s else s
    let s := if r.blockDevTools then blockDevTools s else s
    let s := if r.blockPrintScreen then blockPrintScreen s else s
    let s := if r.blockScreenshots then blockScreenshots s else s
    let s := overrideWindowFunctions s
    let s := monitorPageVisibility s
    blockUnauthorizedNavigation s

/-- activate (lines 90-95): sets isActive and starts enforcement with the
supplied config. -/
def activate (cfg : Option Restrictions) (s : EnforcerState) : EnforcerState :=
  startEnforcement cfg { s with isActive := true }

/-- deactivate (lines 97-101): clears isActive and calls stopEnforcement. -/
def deactivate (s : EnforcerState) : EnforcerState :=
  stopEnforcement { s with isActive := false }

/-- A monitoring-interval firing at the enforcer level: acts on the
detection closure when one has been created, and is a no-op before
startDeveloperToolsDetection has run. -/
def enforcerTick (inp : TickInput) (s : EnforcerState) : EnforcerState :=
  match s.det with
  | none => s
  | some d => { s with det := some (tick inp d) }

/-- Enforcer state of a fresh content script instance (constructor,
lines 4-11). -/
def initEnforcer : EnforcerState := ⟨false, [], [], [], [], none⟩

/-- A configuration with every restriction enabled. -/
def fullRestrictions : Restrictions := ⟨true, true, true, true, true, true, true⟩

/-- Enforcer state of a fully armed session: activate with every
restriction enabled. -/
def sessionState : EnforcerState := activate (some fullRestrictions) initEnforcer

/-- The data object of the LOG_UNAUTHORIZED_ACTION message assembled by
logBlockedAction (lines 693-702): the caller-supplied fields (method and
severity for the developer-tools violation, lines 448-453) spread first,
then url, timestamp and userAgent appended. -/
structure LogData where
  method : Option String
  severity : Option String
  url : String
  timestamp : Int
  userAgent : String
deriving DecidableEq

/-- The outbound message logBlockedAction posts to the host logging
collaborator. -/
structure LogMsg where
  action : String
  type : String
  data : LogData
deriving DecidableEq

/-- The DEVELOPER_TOOLS_DETECTED message sent to the background
coordinator (lines 456-464). -/
structure CoordMsg where
  action : String
  method : String
  url : String
  userAgent : String
  timestamp : Int
deriving DecidableEq

/-- Execution environment of one dispatcher run: the page context read by
the handlers, whether delivery of the log message fails (the rejection is
caught inside logBlockedAction, lines 703-705), whether the direct
chrome.runtime.sendMessage of line 456 throws, and whether the alert of
line 467 throws. -/
structure ViolationEnv where
  url : String
  userAgent : String
  now : Int
  logDeliveryFails : Bool
  coordSendThrows : Bool
  alertThrows : Bool
deriving DecidableEq

/-- Observable outcome of one handleDeveloperToolsViolation run: the
outbound calls made to the logging collaborator, the coordinator messages
sent, the number of alerts completed, and the final value assigned to
window.location.href. -/
structure ViolationOutcome where
  logCalls : List LogMsg
  coordCalls : List CoordMsg
  alertsShown : Nat
  finalLocation : Option String
deriving DecidableEq

/-- The fixed violation URL of lines 470 and 475. -/
def violationUrl : String := "https://examroom.ai/devtooltrying"

/-- handleDeveloperToolsViolation (lines 445-477). The awaited
logBlockedAction call always completes and always makes exactly one
outbound call, because its own try/catch absorbs delivery failures
(lines 692-705). The remaining try-block steps each either complete or
throw; on any throw the catch block of lines 472-476 runs, which still
assigns the violation URL to window.location.href. -/
def handleDeveloperToolsViolation (method : String) (env : ViolationEnv) :
    ViolationOutcome :=
  let lmsg : LogMsg :=
    ⟨"LOG_UNAUTHORIZED_ACTION", "DEVELOPER_TOOLS_VIOLATION",
      ⟨some method, some "CRITICAL", env.url, env.now, env.userAgent⟩⟩
  match env.coordSendThrows with
  | true => ⟨[lmsg], [], 0, some violationUrl⟩
  | false =>
    let cmsg : CoordMsg :=
      ⟨"DEVELOPER_TOOLS_DETECTED", method, env.url, env.userAgent, env.now⟩
    match env.alertThrows with
    | true => ⟨[lmsg], [cmsg], 0, some violationUrl⟩
    | false => ⟨[lmsg], [cmsg], 1, some violationUrl⟩

/-- The value found in the video field of the constraints object passed to
getUserMedia: absent or otherwise falsy, a truthy non-object (property
access yields undefined), or an object with an optional mediaSource
string. -/
inductive VideoField
  | absent
  | primitiveTruthy
  | obj (mediaSource : Option String)
deriving DecidableEq

/-- The constraints argument of getUserMedia: undefined (or otherwise
falsy), or an object with a video field. -/
inductive ConstraintsArg
  | undef
  | obj (video : VideoField)
deriving DecidableEq

/-- Result of a call through the getUserMedia override: a rejected promise
carrying an error message, or delegation of the unchanged constraints to
the saved original function. -/
inductive GumResult
  | rejected (message : String)
  | delegated (constraints : ConstraintsArg)
deriving DecidableEq

/-- The getUserMedia override installed by blockScreenshots
(lines 513-520): rejects when constraints is truthy, constraints.video is
truthy and constraints.video.mediaSource equals the string screen;
otherwise calls the original with the same constraints. -/
def getUserMediaOverride (c : ConstraintsArg) : GumResult :=
  match c with
  | .undef => .delegated c
  | .obj v =>
    match v with
    | .absent => .delegated c
    | .primitiveTruthy => .delegated c
    | .obj ms =>
      if ms = some "screen" then .rejected "Screen capture blocked"
      else .delegated c

/-- Specification-side predicate: the constraints argument has a video
object whose mediaSource is the string screen. -/
def videoMediaSourceIsScreen (c : ConstraintsArg) : Bool :=
  match c with
  | .obj (.obj (some s)) => decide (s = "screen")
  | _ => false

/-- Shape of the object passed to sendResponse by handleMessage. -/
structure MsgResponse where
  success : Option Bool
  error : Option String
  message : Option String
  isActive : Option Bool
deriving DecidableEq

/-- The five action strings handled by the switch of lines 58-82. -/
def knownActions : List String :=
  ["PING", "ACTIVATE_SECURITY", "DEACTIVATE_SECURITY", "UPDATE_CONFIG",
   "BATTERY_WARNING"]

/-- Response behavior of handleMessage (lines 57-88): the switch sends
exactly one response per incoming message and the function returns true on
every path. The PING response additionally carries the PONG message and
the isActive flag. -/
def handleMessage (action : String) (isActive : Bool) : List MsgResponse × Bool :=
  if action = "PING" then
    ([⟨some true, none, some "SecurityEnforcer PONG", some isActive⟩], true)
  else if action = "ACTIVATE_SECURITY" then ([⟨some true, none, none, none⟩], true)
  else if action = "DEACTIVATE_SECURITY" then ([⟨some true, none, none, none⟩], true)
  else if action = "UPDATE_CONFIG" then ([⟨some true, none, none, none⟩], true)
  else if action = "BATTERY_WARNING" then ([⟨some true, none, none, none⟩], true)
  else ([⟨none, some "Unknown action", none, none⟩], true)

/-- Each polled collector leaves the counter unchanged or adds its fixed
positive weight. -/
theorem runCollector_count_le (inp : TickInput) (k : Nat) (s : DetState) :
    s.detectionCount ≤ (runCollector inp k s).detectionCount := by
  unfold runCollector
  split_ifs <;> simp

/-- Polled collectors never reset devToolsOpen. -/
theorem runCollector_open_mono (inp : TickInput) (k : Nat) (s : DetState)
    (h : s.devToolsOpen = true) : (runCollector inp k s).devToolsOpen = true := by
  unfold runCollector
  split_ifs <;> simp [h]

/-- Polled collectors do not invoke the dispatcher. -/
theorem runCollector_dispatches_eq (inp : TickInput) (k : Nat) (s : DetState) :
    (runCollector inp k s).dispatches = s.dispatches := by
  unfold runCollector
  split_ifs <;> rfl

/-- Polled collectors do not touch the interval handle. -/
theorem runCollector_sched_eq (inp : TickInput) (k : Nat) (s : DetState) :
    (runCollector inp k s).intervalScheduled = s.intervalScheduled := by
  unfold runCollector
  split_ifs <;> rfl

/-- Running a prefix of the polled collectors never decreases the counter. -/
theorem runCollectorsUpTo_count_le (inp : TickInput) (n : Nat) (s : DetState) :
    s.detectionCount ≤ (runCollectorsUpTo inp n s).detectionCount := by
  induction n with
  | zero => exact le_refl _
  | succ n ih =>
    exact le_trans ih (runCollector_count_le inp n (runCollectorsUpTo inp n s))

/-- Running a prefix of the polled collectors never resets devToolsOpen. -/
theorem runCollectorsUpTo_open_mono (inp : TickInput) (n : Nat) (s : DetState)
    (h : s.devToolsOpen = true) :
    (runCollectorsUpTo inp n s).devToolsOpen = true := by
  induction n with
  | zero => exact h
  | succ n ih => exact runCollector_open_mono inp n _ ih

/-- Running a prefix of the polled collectors keeps the dispatch count. -/
theorem runCollectorsUpTo_dispatches_eq (inp : TickInput) (n : Nat) (s : DetState) :
    (runCollectorsUpTo inp n s).dispatches = s.dispatches := by
  induction n with
  | zero => rfl
  | succ n ih => rw [runCollectorsUpTo, runCollector_dispatches_eq, ih]

/-- Running a prefix of the polled collectors keeps the interval handle. -/
theorem runCollectorsUpTo_sched_eq (inp : TickInput) (n : Nat) (s : DetState) :
    (runCollectorsUpTo inp n s).intervalScheduled = s.intervalScheduled := by
  induction n with
  | zero => rfl
  | succ n ih => rw [runCollectorsUpTo, runCollector_sched_eq, ih]

/-- Reduction: a tick with the interval cleared is a no-op. -/
theorem tick_not_sched (inp : TickInput) (s : DetState)
    (hs : s.intervalScheduled = false) : tick inp s = s := by
  simp [tick, hs]

/-- Reduction: a tick on which collector k throws runs the collectors
before k and then the catch block. -/
theorem tick_throw (inp : TickInput) (s : DetState) (k : Fin 4)
    (hs : s.intervalScheduled = true) (hk : inp.throwAt = some k) :
    tick inp s =
      { (runCollectorsUpTo inp k.val s) with
        detectionCount := (runCollectorsUpTo inp k.val s).detectionCount + 5 } := by
  simp [tick, hs, hk]

/-- Reduction: a throw-free tick runs all four collectors and then the
threshold comparison. -/
theorem tick_clean (inp : TickInput) (s : DetState)
    (hs : s.intervalScheduled = true) (hk : inp.throwAt = none) :
    tick inp s =
      (if triggerCond (runCollectorsUpTo inp 4 s).devToolsOpen
          (runCollectorsUpTo inp 4 s).detectionCount then
        { (runCollectorsUpTo inp 4 s) with
          intervalScheduled := false,
          dispatches := (runCollectorsUpTo inp 4 s).dispatches + 1 }
      else runCollectorsUpTo inp 4 s) := by
  simp [tick, hs, hk]

/-- The trigger comparison is monotone in both accumulators. -/
theorem triggerCond_mono (o o' : Bool) (c c' : Int)
    (ho : o = true → o' = true) (hc : c ≤ c')
    (h : triggerCond o c = true) : triggerCond o' c' = true := by
  simp only [triggerCond, Bool.or_eq_true, decide_eq_true_eq] at h ⊢
  rcases h with h | h
  · exact Or.inl (ho h)
  · exact Or.inr (by omega)

/-- No serialized event decreases the confidence counter. -/
theorem step_count_le (e : DetEvent) (s : DetState) :
    s.detectionCount ≤ (step e s).detectionCount := by
  cases e with
  | consoleLogCall => simp [step]
  | consoleClearCall => simp [step]
  | contextmenuFire => simp [step]
  | keydownShortcut => simp [step]
  | tickFire inp =>
    show s.detectionCount ≤ (tick inp s).detectionCount
    cases hs : s.intervalScheduled with
    | false => rw [tick_not_sched inp s hs]
    | true =>
      cases hthrow : inp.throwAt with
      | some k =>
        rw [tick_throw inp s k hs hthrow]
        have h1 := runCollectorsUpTo_count_le inp k.val s
        simp only []
        omega
      | none =>
        rw [tick_clean inp s hs hthrow]
        have h1 := runCollectorsUpTo_count_le inp 4 s
        split_ifs <;> simpa using h1

/-- The counter stays non-negative along any run that starts from a
non-negative counter. -/
theorem runFrom_count_nonneg (es : List DetEvent) :
    ∀ s : DetState, 0 ≤ s.detectionCount →
      0 ≤ (es.foldl (fun s e => step e s) s).detectionCount := by
  induction es with
  | nil => intro s hs; exact hs
  | cons e es ih =>
    intro s hs
    exact ih (step e s) (le_trans hs (step_count_le e s))

/-- C4 (confirmed). For all sequences of collector firings the confidence
counter detectionCount is non-decreasing within a session: it starts at
zero at session start, no serialized event (console override call,
context-menu hook, blocked shortcut, polling tick) ever decreases it, and
along every event sequence it stays at least 0. -/
theorem c4_counter_monotone : ∀ (es : List DetEvent) (e : DetEvent),
    (runEvents []).detectionCount = 0
    ∧ 0 ≤ (runEvents es).detectionCount
    ∧ (runEvents es).detectionCount ≤ (step e (runEvents es)).detectionCount := by
  intro es e
  refine ⟨rfl, ?_, step_count_le e (runEvents es)⟩
  have h0 : (0 : Int) ≤ detInit.detectionCount := by decide
  exact runFrom_count_nonneg es detInit h0

/-- C1 (counterexample). The claim asserts that every trigger path cancels
the polling timer, so the dispatcher fires at most once per session. On
the code, the context-menu hook dispatches without clearing the interval:
after a single context-menu firing the dispatcher has run once while the
timer is still scheduled, and the next timer tick dispatches a second
time. -/
theorem c1_counterexample :
    (runEvents [DetEvent.contextmenuFire]).dispatches = 1
    ∧ (runEvents [DetEvent.contextmenuFire]).intervalScheduled = true
    ∧ (runEvents [DetEvent.contextmenuFire,
        DetEvent.tickFire quietInput]).dispatches = 2 := by
  decide

/-- C1 (amended). Only the polling-tick trigger path cancels the timer:
whenever a tick increments the dispatch count, the same tick clears the
interval (clearInterval precedes the dispatcher call at lines 432-433),
and once the interval is cleared a tick is a no-op, so no further tick
dispatches. Triggers from the keyboard listener or the context-menu hook
do not cancel the timer (see the counterexample). -/
theorem c1_tick_trigger_cancels_timer : ∀ (s : DetState) (inp : TickInput),
    ((tick inp s).dispatches ≠ s.dispatches →
      (tick inp s).intervalScheduled = false)
    ∧ (s.intervalScheduled = false → tick inp s = s) := by
  intro s inp
  constructor
  · intro hd
    cases hs : s.intervalScheduled with
    | false =>
      rw [tick_not_sched inp s hs] at hd
      exact absurd rfl hd
    | true =>
      cases hthrow : inp.throwAt with
      | some k =>
        rw [tick_throw inp s k hs hthrow] at hd
        exact absurd (runCollectorsUpTo_dispatches_eq inp k.val s) hd
      | none =>
        rw [tick_clean inp s hs hthrow] at hd ⊢
        by_cases htr : triggerCond (runCollectorsUpTo inp 4 s).devToolsOpen
            (runCollectorsUpTo inp 4 s).detectionCount = true
        · simp only [htr, if_true]
        · simp only [htr, if_false] at hd
          exact absurd (runCollectorsUpTo_dispatches_eq inp 4 s) hd
  · intro hs
    exact tick_not_sched inp s hs

/-- C1 witness: the amended theorem applied at a concrete state whose
counter already exceeds the threshold (the quiet tick dispatches and
clears the interval) and at a concrete state whose interval is cleared
(the tick is a no-op). -/
theorem c1_witness :
    (tick quietInput ⟨false, 20, true, 0⟩).intervalScheduled = false
    ∧ tick quietInput ⟨false, 0, false, 0⟩ = ⟨false, 0, false, 0⟩ :=
  ⟨(c1_tick_trigger_cancels_timer ⟨false, 20, true, 0⟩ quietInput).1 (by decide),
   (c1_tick_trigger_cancels_timer ⟨false, 0, false, 0⟩ quietInput).2 rfl⟩

/-- If some polled collector fires on a tick, the four-collector pass
leaves devToolsOpen set: each weighted collector that fires assigns
devToolsOpen = true (lines 374, 383, 395, 407) and no collector ever
clears it. -/
theorem runCollectorsUpTo_four_open_of_fire (inp : TickInput) (s : DetState)
    (h : inp.windowDelta = true ∨ inp.viewportDelta = true
      ∨ inp.dirTrap = true ∨ inp.perfSlow = true) :
    (runCollectorsUpTo inp 4 s).devToolsOpen = true := by
  show (runCollector inp 3 (runCollector inp 2 (runCollector inp 1
    (runCollector inp 0 s)))).devToolsOpen = true
  rcases h with h | h | h | h
  · have h0 : (runCollector inp 0 s).devToolsOpen = true := by
      simp [runCollector, h]
    exact runCollector_open_mono inp 3 _ (runCollector_open_mono inp 2 _
      (runCollector_open_mono inp 1 _ h0))
  · have h1 : (runCollector inp 1 (runCollector inp 0 s)).devToolsOpen = true := by
      simp [runCollector, h]
    exact runCollector_open_mono inp 3 _ (runCollector_open_mono inp 2 _ h1)
  · have h2 : (runCollector inp 2 (runCollector inp 1
        (runCollector inp 0 s))).devToolsOpen = true := by
      simp [runCollector, h]
    exact runCollector_open_mono inp 3 _ h2
  · simp [runCollector, h]

/-- A tick on which no polled collector observes its condition leaves the
state unchanged by the four-collector pass. -/
theorem runCollectorsUpTo_four_quiet (inp : TickInput) (s : DetState)
    (hw : inp.windowDelta = false) (hv : inp.viewportDelta = false)
    (hd : inp.dirTrap = false) (hp : inp.perfSlow = false) :
    runCollectorsUpTo inp 4 s = s := by
  show runCollector inp 3 (runCollector inp 2 (runCollector inp 1
    (runCollector inp 0 s))) = s
  simp [runCollector, hw, hv, hd, hp]

/-- C2 (counterexample). The claim asserts that while the accumulated
total stays below the threshold 10 no violation fires, in particular that
weights 3, 3, 3 produce no trigger after the third tick. On the code,
the weight-3 collector (checkWindowSize, line 374) also sets devToolsOpen
when it fires, and line 431 tests devToolsOpen first: a single weight-3
firing dispatches on that very tick with total 3, far below 10, and after
the three-tick realization of the weights 3, 3, 3 the dispatcher has
fired (once, on the first tick). -/
theorem c2_counterexample :
    (tick windowDeltaInput detInit).dispatches = 1
    ∧ (tick windowDeltaInput detInit).detectionCount = 3
    ∧ ((3 : Int) < 10)
    ∧ (runEvents [DetEvent.tickFire windowDeltaInput,
        DetEvent.tickFire windowDeltaInput,
        DetEvent.tickFire windowDeltaInput]).dispatches = 1 := by
  decide

/-- C2 (amended). The aggregator is not a pure total-versus-threshold
gate: every weighted collector firing also sets devToolsOpen, and the
tick comparison of line 431 is devToolsOpen or total strictly above 10.
So any throw-free scheduled tick on which at least one collector fires
dispatches immediately and clears the interval, regardless of the
accumulated total; and on a throw-free tick on which no collector fires
and devToolsOpen is still unset, the accumulated total alone decides,
with the strict comparison: the tick dispatches exactly when the total
strictly exceeds 10 (a total of exactly 10 does not trigger). -/
theorem c2_flag_or_strict_threshold :
    ∀ (s : DetState) (inp : TickInput),
      s.intervalScheduled = true → inp.throwAt = none →
      (((inp.windowDelta = true ∨ inp.viewportDelta = true
          ∨ inp.dirTrap = true ∨ inp.perfSlow = true) →
        ((tick inp s).dispatches = s.dispatches + 1
         ∧ (tick inp s).intervalScheduled = false))
       ∧ (inp.windowDelta = false → inp.viewportDelta = false →
          inp.dirTrap = false → inp.perfSlow = false →
          s.devToolsOpen = false →
        ((tick inp s).dispatches = s.dispatches + 1 ↔
          10 < s.detectionCount))) := by
  intro s inp hs hk
  rw [tick_clean inp s hs hk]
  constructor
  · intro hfire
    have hopen := runCollectorsUpTo_four_open_of_fire inp s hfire
    have htr : triggerCond (runCollectorsUpTo inp 4 s).devToolsOpen
        (runCollectorsUpTo inp 4 s).detectionCount = true := by
      simp [triggerCond, hopen]
    rw [if_pos htr]
    exact ⟨by simp [runCollectorsUpTo_dispatches_eq], rfl⟩
  · intro hw hv hd hp hopen
    rw [runCollectorsUpTo_four_quiet inp s hw hv hd hp, hopen]
    by_cases h10 : (10 : Int) < s.detectionCount
    · have htr : triggerCond false s.detectionCount = true := by
        simp [triggerCond, h10]
      rw [if_pos htr]
      simp [h10]
    · have htr : triggerCond false s.detectionCount = false := by
        simp [triggerCond, h10]
      rw [if_neg (by simp [htr])]
      constructor
      · intro h
        exact absurd h (by omega)
      · intro h
        exact absurd h h10

/-- C2 witness: the amended theorem applied to a concrete scheduled state
with a firing weight-3 collector (immediate dispatch at total 0 plus 3),
and to a concrete quiet flag-free tick whose counter is exactly 10 (the
strict comparison yields no dispatch, as both iff sides are false). -/
theorem c2_witness :
    ((tick windowDeltaInput ⟨false, 0, true, 5⟩).dispatches = 5 + 1
     ∧ (tick windowDeltaInput ⟨false, 0, true, 5⟩).intervalScheduled = false)
    ∧ ((tick quietInput ⟨false, 10, true, 0⟩).dispatches = 0 + 1 ↔
        (10 : Int) < 10) := by
  have h1 := c2_flag_or_strict_threshold ⟨false, 0, true, 5⟩ windowDeltaInput rfl rfl
  have h2 := c2_flag_or_strict_threshold ⟨false, 10, true, 0⟩ quietInput rfl rfl
  exact ⟨h1.1 (Or.inl rfl), h2.2 rfl rfl rfl rfl rfl⟩

/-- C3 (counterexample). The claim asserts that when a collector throws
the poll still completes including the threshold comparison of that tick.
On the code the comparison of line 431 sits inside the try block, so a
throwing collector skips it: from counter 8 a throwing tick raises the
counter to 13, a value on which the trigger comparison holds, yet the
tick neither clears the interval nor invokes the dispatcher. -/
theorem c3_counterexample :
    (tick throwInput ⟨false, 8, true, 0⟩).detectionCount = 13
    ∧ triggerCond (tick throwInput ⟨false, 8, true, 0⟩).devToolsOpen
        (tick throwInput ⟨false, 8, true, 0⟩).detectionCount = true
    ∧ (tick throwInput ⟨false, 8, true, 0⟩).dispatches = 0
    ∧ (tick throwInput ⟨false, 8, true, 0⟩).intervalScheduled = true := by
  decide

/-- C3 (amended). If a collector throws during a scheduled tick, the
exception is absorbed by the catch block (the tick is a total transition,
never an error), the counter still increases by at least the catch weight
5, but the threshold comparison of that tick is skipped: the dispatch
count and the interval handle are unchanged. The comparison is deferred
to the next tick: if the post-throw state satisfies the trigger
comparison, any following throw-free tick clears the interval and invokes
the dispatcher exactly once. -/
theorem c3_throw_absorbed_check_deferred :
    ∀ (s : DetState) (inp : TickInput) (k : Fin 4),
      inp.throwAt = some k → s.intervalScheduled = true →
      (s.detectionCount + 5 ≤ (tick inp s).detectionCount
       ∧ (tick inp s).dispatches = s.dispatches
       ∧ (tick inp s).intervalScheduled = true
       ∧ ∀ inp2 : TickInput, inp2.throwAt = none →
           triggerCond (tick inp s).devToolsOpen
             (tick inp s).detectionCount = true →
           (tick inp2 (tick inp s)).dispatches = s.dispatches + 1) := by
  intro s inp k hk hs
  rw [tick_throw inp s k hs hk]
  have hcnt := runCollectorsUpTo_count_le inp k.val s
  have hdisp := runCollectorsUpTo_dispatches_eq inp k.val s
  have hsch := runCollectorsUpTo_sched_eq inp k.val s
  refine ⟨by simp only []; omega, by simpa using hdisp, by simp [hsch, hs], ?_⟩
  intro inp2 hk2 htr
  set s1 : DetState :=
    { (runCollectorsUpTo inp k.val s) with
      detectionCount := (runCollectorsUpTo inp k.val s).detectionCount + 5 }
    with hs1
  have hs1sch : s1.intervalScheduled = true := by simp [hs1, hsch, hs]
  rw [tick_clean inp2 s1 hs1sch hk2]
  have htr2 : triggerCond (runCollectorsUpTo inp2 4 s1).devToolsOpen
      (runCollectorsUpTo inp2 4 s1).detectionCount = true := by
    refine triggerCond_mono s1.devToolsOpen _ s1.detectionCount _ ?_ ?_ htr
    · exact runCollectorsUpTo_open_mono inp2 4 s1
    · exact runCollectorsUpTo_count_le inp2 4 s1
  rw [if_pos htr2]
  simp only []
  rw [runCollectorsUpTo_dispatches_eq]
  simp [hs1, hdisp]

/-- C3 witness: the amended theorem applied to the concrete throwing tick
of the counterexample, followed by a quiet tick which then dispatches. -/
theorem c3_witness :
    ((8 : Int) + 5 ≤ (tick throwInput ⟨false, 8, true, 0⟩).detectionCount)
    ∧ (tick quietInput (tick throwInput ⟨false, 8, true, 0⟩)).dispatches = 0 + 1 := by
  have h := c3_throw_absorbed_check_deferred ⟨false, 8, true, 0⟩ throwInput 0 rfl rfl
  exact ⟨h.1, h.2.2.2 quietInput rfl (by decide)⟩

/-- Membership after the stopEnforcement function-restore loop: a slot
stays overridden exactly when it was overridden and is not recorded in the
originalFunctions map. -/
theorem mem_restore_fold (fs : List FuncPath) :
    ∀ (ov : List FuncPath) (g : FuncPath),
      g ∈ fs.foldl (fun ov f => ov.filter (fun x => ! decide (x = f))) ov ↔
        (g ∈ ov ∧ g ∉ fs) := by
  induction fs with
  | nil => intro ov g; simp
  | cons f fs ih =>
    intro ov g
    rw [List.foldl_cons, ih]
    simp only [List.mem_filter, Bool.not_eq_true', decide_eq_false_iff_not,
      List.mem_cons]
    tauto

/-- Membership after the stopEnforcement listener-removal loop: a
registration survives exactly when no eventListeners map entry produces a
matching removeEventListener call for it. -/
theorem mem_removal_fold (evs : List (String × ListenerTag)) :
    ∀ (regs : List ListenerReg) (r : ListenerReg),
      r ∈ evs.foldl (fun regs ev => regs.filter (fun x => ! removalMatches ev x))
          regs ↔
        (r ∈ regs ∧ ∀ ev ∈ evs, removalMatches ev r = false) := by
  induction evs with
  | nil => intro regs r; simp
  | cons ev evs ih =>
    intro regs r
    rw [List.foldl_cons, ih]
    simp only [List.mem_filter, Bool.not_eq_true', List.forall_mem_cons]
    tauto

/-- C8 (amended). stopEnforcement clears both maps and touches nothing
recorded in neither: a function slot stays overridden exactly when it is
absent from the originalFunctions map, and a listener registration
survives exactly when no map entry matches it as a
document.removeEventListener(key, listener, true) call, that is, unless
the registration is on document with capture true and its event type
equals the map key. Consequently the unrecorded console.log and
console.clear overrides and the unrecorded detection context-menu
listener remain installed after stopEnforcement of a fully armed session,
while recorded and matching entries (for example window.open and the
copy listener) are indeed restored and removed. The detection interval
state is untouched. -/
theorem c8_stop_frame :
    (∀ s : EnforcerState,
      (∀ g : FuncPath, g ∈ (stopEnforcement s).overridden ↔
        (g ∈ s.overridden ∧ g ∉ s.originalFunctions))
      ∧ (∀ r : ListenerReg, r ∈ (stopEnforcement s).installed ↔
        (r ∈ s.installed ∧ ∀ ev ∈ s.eventListeners, removalMatches ev r = false))
      ∧ (stopEnforcement s).eventListeners = []
      ∧ (stopEnforcement s).originalFunctions = []
      ∧ (stopEnforcement s).det = s.det)
    ∧ (FuncPath.consoleLog ∈ (stopEnforcement sessionState).overridden
       ∧ FuncPath.consoleClear ∈ (stopEnforcement sessionState).overridden
       ∧ (⟨Target.document, "contextmenu", ListenerTag.detectionContextmenu,
            false⟩ : ListenerReg) ∈ (stopEnforcement sessionState).installed
       ∧ FuncPath.windowOpen ∉ (stopEnforcement sessionState).overridden
       ∧ (⟨Target.document, "copy", ListenerTag.copyL,
            true⟩ : ListenerReg) ∉ (stopEnforcement sessionState).installed) := by
  constructor
  · intro s
    refine ⟨?_, ?_, rfl, rfl, rfl⟩
    · intro g
      exact mem_restore_fold s.originalFunctions s.overridden g
    · intro r
      exact mem_removal_fold s.eventListeners s.installed r
  · refine ⟨by decide, by decide, by decide, by decide, by decide⟩

/-- C8 (counterexample). The claim's parenthetical asserts that
everything in the two maps is restored or removed. The keydown listener
of blockDevTools is recorded under the map key keydown-devtools although
it was registered for the event type keydown, so the removeEventListener
call issued by stopEnforcement does not match it and the listener is
still installed after stopEnforcement. -/
theorem c8_counterexample :
    (("keydown-devtools", ListenerTag.keydownDevtools) ∈
      sessionState.eventListeners)
    ∧ ((⟨Target.document, "keydown", ListenerTag.keydownDevtools,
         true⟩ : ListenerReg) ∈ sessionState.installed)
    ∧ ((⟨Target.document, "keydown", ListenerTag.keydownDevtools,
         true⟩ : ListenerReg) ∈ (stopEnforcement sessionState).installed) := by
  decide

/-- C8 witness: the amended theorem applied to the fully armed session
state, showing the blur listener (registered on window, recorded in the
map) survives stopEnforcement because no removal call matches it. -/
theorem c8_witness :
    (⟨Target.window, "blur", ListenerTag.blurL, false⟩ : ListenerReg) ∈
      (stopEnforcement sessionState).installed :=
  ((c8_stop_frame.1 sessionState).2.1
      ⟨Target.window, "blur", ListenerTag.blurL, false⟩).mpr (by decide)

/-- C5 (code behavior at the failing input). Deactivating a fully armed
session leaves the devtools monitoring interval scheduled
(stopEnforcement never clears the handle stored at line 442), a
subsequent throwing tick still raises the confidence counter from 0 to 5,
and a subsequent tick on which all collectors fire still invokes the
reaction dispatcher: polling and signal counting continue after
teardown, contradicting the claim. -/
theorem c5_interval_survives_teardown :
    ((deactivate sessionState).det.map (fun d => d.intervalScheduled) = some true)
    ∧ ((enforcerTick throwInput (deactivate sessionState)).det.map
        (fun d => d.detectionCount) = some 5)
    ∧ ((enforcerTick fireAllInput (deactivate sessionState)).det.map
        (fun d => d.dispatches) = some 1) := by
  exact ⟨rfl, rfl, rfl⟩

/-- C6 (confirmed). Every execution of handleDeveloperToolsViolation ends
by assigning the fixed violation URL to window.location.href: the
assignment of line 470 runs when no step throws, and the catch block of
lines 472-476 performs the same assignment when the coordinator message
or the alert throws; a failed log delivery is absorbed inside
logBlockedAction and changes nothing. -/
theorem c6_redirect_unconditional : ∀ (method : String) (env : ViolationEnv),
    (handleDeveloperToolsViolation method env).finalLocation = some violationUrl := by
  intro m env
  cases hc : env.coordSendThrows <;> cases ha : env.alertThrows <;>
    simp [handleDeveloperToolsViolation, hc, ha]

/-- C7 (confirmed). Every dispatcher execution makes exactly one outbound
call to the host logging collaborator, regardless of whether delivery
fails or a later step throws, and the call carries the structured record
with action LOG_UNAUTHORIZED_ACTION, type DEVELOPER_TOOLS_VIOLATION,
severity CRITICAL, the timestamp, and the free-form context (URL and user
agent). -/
theorem c7_single_log_call : ∀ (method : String) (env : ViolationEnv),
    ((handleDeveloperToolsViolation method env).logCalls
        = [⟨"LOG_UNAUTHORIZED_ACTION", "DEVELOPER_TOOLS_VIOLATION",
            ⟨some method, some "CRITICAL", env.url, env.now, env.userAgent⟩⟩]
     ∧ (handleDeveloperToolsViolation method env).logCalls.length = 1) := by
  intro m env
  cases hc : env.coordSendThrows <;> cases ha : env.alertThrows <;>
    simp [handleDeveloperToolsViolation, hc, ha]

/-- C9 (confirmed). The getUserMedia override rejects with the message
Screen capture blocked exactly when the constraints argument carries a
video object whose mediaSource equals the string screen; every other
constraints value (missing constraints, falsy or non-object video, other
or absent mediaSource) is delegated unchanged to the saved original
getUserMedia. -/
theorem c9_getusermedia_screen_block : ∀ c : ConstraintsArg,
    getUserMediaOverride c =
      (if videoMediaSourceIsScreen c = true then
        GumResult.rejected "Screen capture blocked"
       else GumResult.delegated c) := by
  intro c
  rcases c with _ | v
  · rfl
  · rcases v with _ | _ | ms
    · rfl
    · rfl
    · rcases ms with _ | s
      · rfl
      · by_cases h : s = "screen" <;>
          simp [getUserMediaOverride, videoMediaSourceIsScreen, h]

/-- C10 (confirmed). handleMessage sends exactly one response per
incoming message and returns true on every path; the response carries
success true for each of the five known actions and is the object with
error Unknown action for every other action string. -/
theorem c10_handle_message_responses : ∀ (action : String) (isActive : Bool),
    ((handleMessage action isActive).1.length = 1
     ∧ (handleMessage action isActive).2 = true
     ∧ (action ∈ knownActions →
         ∀ r ∈ (handleMessage action isActive).1, r.success = some true)
     ∧ (action ∉ knownActions →
         (handleMessage action isActive).1
           = [⟨none, some "Unknown action", none, none⟩])) := by
  intro a ia
  unfold handleMessage knownActions
  split_ifs with h1 h2 h3 h4 h5 <;> simp_all

/-- C10 witness: the dispatch theorem applied to the known action PING
and to an unknown action string. -/
theorem c10_witness :
    (∀ r ∈ (handleMessage "PING" true).1, r.success = some true)
    ∧ (handleMessage "FLY" true).1 = [⟨none, some "Unknown action", none, none⟩] :=
  ⟨(c10_handle_message_responses "PING" true).2.2.1 (by decide),
   (c10_handle_message_responses "FLY" true).2.2.2 (by decide)⟩

end SecurityEnforcer
